import Mathlib

/-!
Verification development for the candidate-invitation automation pipeline
(`src/email_automation.py`).  The pure decision logic of the script is
embedded shallowly: each Python function that the claims mention becomes a
Lean definition; network calls are modelled by passing the transport
response (HTTP status code and body text) as explicit input, and the
per-candidate iteration body of `main` becomes a pure function from those
inputs to the row's observable outcome (status written to the in-memory
table, cell writes issued to the sheet, send attempts, operator warnings).

Strings are handled at the `List Char` level.  Python's `\d` and `str.strip`
are modelled over their ASCII behaviour (`Char.isDigit`,
`Char.isWhitespace`), which agrees with Python on all ASCII text.
-/

/-- Numeric value of a decimal digit character. -/
def digitVal (c : Char) : Nat := c.toNat - '0'.toNat

/-- Python `str.strip()`: drop whitespace from both ends. -/
def pyStrip (l : List Char) : List Char :=
  ((l.dropWhile Char.isWhitespace).reverse.dropWhile Char.isWhitespace).reverse

/-- `str.strip()` at the `String` level. -/
def pyStripS (s : String) : String := ⟨pyStrip s.data⟩

/- ### Rating extraction: `re.search(r'(\d{1,2})/10', response_text)`

The regex engine scans candidate start positions left to right; at a
position it first tries two digits followed by the literal `/10`, then
backtracks to one digit followed by `/10`. -/

/-- Attempt of `\d{2}/10` anchored at the head of the list. -/
def matchTwoDigits : List Char → Option Nat
  | a :: b :: rest =>
      if a.isDigit && b.isDigit && rest.take 3 = ['/', '1', '0'] then
        some (10 * digitVal a + digitVal b)
      else none
  | _ => none

/-- Attempt of `\d{1}/10` anchored at the head of the list. -/
def matchOneDigit : List Char → Option Nat
  | a :: rest =>
      if a.isDigit && rest.take 3 = ['/', '1', '0'] then some (digitVal a)
      else none
  | _ => none

/-- `(\d{1,2})/10` anchored at the head: greedy, so two digits are tried
before one. -/
def matchRatingAt (l : List Char) : Option Nat :=
  (matchTwoDigits l).orElse fun _ => matchOneDigit l

/-- `re.search(r'(\d{1,2})/10', ·)` followed by `int(...)`, defaulting to 0
when there is no match: scan start positions left to right. -/
def searchRating : List Char → Nat
  | [] => 0
  | c :: rest =>
      match matchRatingAt (c :: rest) with
      | some n => n
      | none => searchRating rest

/- ### Reason extraction:
`response_text.split("Reason:", 1)[1].strip() if "Reason:" in response_text
 else response_text` -/

/-- The literal label `"Reason:"`. -/
def reasonLabel : List Char := "Reason:".data

/-- Scan for the first occurrence of `pat` as a contiguous sublist; return
what follows it (`s.split(pat, 1)[1]` when `pat in s`, `none` otherwise). -/
def afterFirst (pat : List Char) : List Char → Option (List Char)
  | [] => none
  | c :: rest =>
      if pat.isPrefixOf (c :: rest) then some ((c :: rest).drop pat.length)
      else afterFirst pat rest

/-- Result of `parse_grok_response`. -/
structure Evaluation where
  rating : Nat
  reason : String
  deriving DecidableEq, Repr

/-- `parse_grok_response`: extract rating and reason from Grok's response.
When the label is absent the full text is returned unstripped, exactly as
in the source. -/
def parse_grok_response (response_text : String) : Evaluation :=
  { rating := searchRating response_text.data
    reason :=
      match afterFirst reasonLabel response_text.data with
      | some rest => ⟨pyStrip rest⟩
      | none => response_text }

/- ### Email validation:
`re.match(r"^[a-zA-Z0-9._%+-]+@[a-zAZ0-9.-]+\.[a-zA-Z]{2,}$", email)`

Note the source's domain character class is `[a-zAZ0-9.-]`: lowercase
letters, the two uppercase letters `A` and `Z`, digits, dot and hyphen —
uppercase `B`–`Y` are absent. -/

/-- Characters of the local-part class `[a-zA-Z0-9._%+-]`. -/
def localChar (c : Char) : Bool :=
  c.isAlpha || c.isDigit || c = '.' || c = '_' || c = '%' || c = '+' || c = '-'

/-- Characters of the domain class as written in the source, `[a-zAZ0-9.-]`. -/
def domainChar (c : Char) : Bool :=
  c.isLower || c = 'A' || c = 'Z' || c.isDigit || c = '.' || c = '-'

/-- Characters of the top-level-domain class `[a-zA-Z]`. -/
def tldChar (c : Char) : Bool := c.isAlpha

/-- `[cls]+` followed by continuation `k`, with full backtracking: consume
one mandatory character, then either hand over to `k` or keep consuming. -/
def plusThen (cls : Char → Bool) (k : List Char → Bool) : List Char → Bool
  | [] => false
  | c :: rest => cls c && (k rest || plusThen cls k rest)

/-- `[a-zA-Z]{2,}$`: at least two letters, then end of string. -/
def matchTldEnd : List Char → Bool
  | a :: b :: rest => tldChar a && tldChar b && rest.all tldChar
  | _ => false

/-- `\.[a-zA-Z]{2,}$`. -/
def matchDotTld : List Char → Bool
  | c :: rest => c = '.' && matchTldEnd rest
  | [] => false

/-- `@[a-zAZ0-9.-]+\.[a-zA-Z]{2,}$`. -/
def matchAtDomain : List Char → Bool
  | c :: rest => c = '@' && plusThen domainChar matchDotTld rest
  | [] => false

/-- The whole anchored pattern
`^[a-zA-Z0-9._%+-]+@[a-zAZ0-9.-]+\.[a-zA-Z]{2,}$` as used by `re.match`. -/
def valid_email (s : String) : Bool :=
  plusThen localChar matchAtDomain s.data

/- ### Transport-facing collaborators -/

/-- An HTTP chat-completion response: status code and the message content
that the script extracts from the body on success. -/
structure ApiResponse where
  status : Nat
  content : String
  deriving DecidableEq, Repr

/-- `evaluate_and_generate_email`: on a 200 response return the stripped
completion text, otherwise the literal fallback string. -/
def evaluate_and_generate_email (resp : ApiResponse) : String :=
  if resp.status = 200 then pyStripS resp.content
  else "Error in generating email content."

/-- `evaluate_candidate_with_grok`: on a 200 response parse the completion
text, otherwise rating 0 with the fixed error reason. -/
def evaluate_candidate_with_grok (resp : ApiResponse) : Evaluation :=
  if resp.status = 200 then parse_grok_response resp.content
  else { rating := 0, reason := "Error in retrieving data" }

/- ### The per-candidate body of `main`'s loop

`for idx, candidate in df.iterrows(): ...` — `idx` is the zero-based
DataFrame row index.  The loop body touches, per candidate: the in-memory
table (`Rating`, `Evaluation Reason`, `Status` at that row), the sheet
(`worksheet.update_cell` calls), the mail relay (`send_email`), and the
operator surface (`st.write` / `st.warning`).  All are recorded in
`RowResult`.  The outcome of `send_email` (a message string that the code
only displays) is supplied as an input, `sendResult`. -/

/-- One candidate row, after `df.map(str)`: the fields the loop body reads.
`emails` is `candidate.get('Emails', '')`; `applicantName` is
`candidate['Applicant Name']`. -/
structure Candidate where
  applicantName : String
  emails : String
  deriving DecidableEq, Repr

/-- The external-world inputs consumed while processing one candidate. -/
structure CandidateEnv where
  genResponse : ApiResponse
  evalResponse : ApiResponse
  sendResult : String
  deriving DecidableEq, Repr

/-- One `worksheet.update_cell(row, header.index(col) + 1, value)` call,
identified by sheet row number and column name. -/
structure CellWrite where
  row : Nat
  col : String
  value : String
  deriving DecidableEq, Repr

/-- One `send_email(email, email_subject, email_content)` call. -/
structure SendAttempt where
  recipient : String
  subject : String
  body : String
  deriving DecidableEq, Repr

/-- Observable outcome of one iteration of the candidate loop. -/
structure RowResult where
  /-- `df.at[idx, 'Rating']` after the iteration. -/
  rating : Nat
  /-- `df.at[idx, 'Evaluation Reason']` after the iteration. -/
  reason : String
  /-- `df.at[idx, 'Status']` after the iteration; `none` when the body
  never assigns it. -/
  status : Option String
  /-- The `send_email` calls made, in order. -/
  sends : List SendAttempt
  /-- The `update_cell` calls made, in order. -/
  writes : List CellWrite
  /-- The `st.warning` message, if any. -/
  warning : Option String
  /-- The `st.write` of the send outcome, if a send happened. -/
  reported : List String
  deriving DecidableEq, Repr

/-- The body of `for idx, candidate in df.iterrows()` in `main`
(src/email_automation.py lines 203–231), as a pure function of the
candidate, its zero-based index, the configured minimum rating and email
subject, and the transport responses. -/
def processCandidate (minRating : Nat) (emailSubject : String) (idx : Nat)
    (candidate : Candidate) (env : CandidateEnv) : RowResult :=
  let response := evaluate_and_generate_email env.genResponse
  let evaluation := evaluate_candidate_with_grok env.evalResponse
  let rating := evaluation.rating
  let email := pyStripS candidate.emails
  if valid_email email then
    if rating ≥ minRating then
      let rowNumber := idx + 2
      { rating := rating
        reason := evaluation.reason
        status := some "Selected and Email Sent"
        sends := [{ recipient := email, subject := emailSubject, body := response }]
        writes :=
          [ { row := rowNumber, col := "Status", value := "Selected and Email Sent" }
          , { row := rowNumber, col := "Evaluation Reason", value := evaluation.reason }
          , { row := rowNumber, col := "Rating", value := toString rating } ]
        warning := none
        reported := [env.sendResult] }
    else
      { rating := rating, reason := evaluation.reason
        status := some "Not Selected"
        sends := [], writes := [], warning := none, reported := [] }
  else
    { rating := rating, reason := evaluation.reason
      status := none
      sends := [], writes := []
      warning := some ("Invalid or missing email for " ++ candidate.applicantName ++ ".")
      reported := [] }

/- ### Specification-side definitions, for comparison with the code -/

/-- A rating occurrence anchored at the head of `l`, as the specification
describes it: a 1-or-2-digit integer immediately followed by the literal
`/10`, with value `n`. -/
def ratingOccHere (l : List Char) (n : Nat) : Prop :=
  (∃ a b rest, l = a :: b :: '/' :: '1' :: '0' :: rest ∧
      a.isDigit ∧ b.isDigit ∧ n = 10 * digitVal a + digitVal b) ∨
  (∃ a rest, l = a :: '/' :: '1' :: '0' :: rest ∧ a.isDigit ∧ n = digitVal a)

/-- A rating occurrence starting at position `i` of `l`. -/
def ratingOccAt (l : List Char) (i : Nat) (n : Nat) : Prop :=
  ratingOccHere (l.drop i) n

/-- Domain character class as the claim describes the check: arbitrary
letters (uppercase included), digits, dot and hyphen. -/
def claimedDomainChar (c : Char) : Bool :=
  c.isAlpha || c.isDigit || c = '.' || c = '-'

/-- The email check as the claim describes it: identical to
`valid_email` except that the domain may contain arbitrary uppercase
letters.  This is the claim's wording, not the source's regex. -/
def valid_email_as_claimed (s : String) : Bool :=
  plusThen localChar
    (fun l =>
      match l with
      | c :: rest => c = '@' && plusThen claimedDomainChar matchDotTld rest
      | [] => false)
    s.data

/- ### Lemmas about the rating search -/

lemma take_three_slash_one_zero {rest : List Char} (h : rest.take 3 = ['/', '1', '0']) :
    rest = '/' :: '1' :: '0' :: rest.drop 3 := by
  conv_lhs => rw [← List.take_append_drop 3 rest]
  rw [h]
  rfl

lemma ratingOccHere_matchRatingAt {l : List Char} {n : Nat}
    (h : ratingOccHere l n) : matchRatingAt l = some n := by
  rcases h with ⟨a, b, rest, rfl, ha, hb, rfl⟩ | ⟨a, rest, rfl, ha, rfl⟩
  · simp [matchRatingAt, matchTwoDigits, ha, hb]
  · simp [matchRatingAt, matchTwoDigits, matchOneDigit, ha,
      (by decide : ('/' : Char).isDigit = false)]

lemma matchRatingAt_ratingOccHere {l : List Char} {n : Nat}
    (h : matchRatingAt l = some n) : ratingOccHere l n := by
  rcases l with _ | ⟨a, rest⟩
  · simp [matchRatingAt, matchTwoDigits, matchOneDigit] at h
  rcases rest with _ | ⟨b, rest2⟩
  · simp [matchRatingAt, matchTwoDigits, matchOneDigit] at h
  rw [matchRatingAt] at h
  cases h2 : matchTwoDigits (a :: b :: rest2) with
  | some v =>
    rw [h2, Option.some_orElse'] at h
    simp only [Option.some.injEq] at h
    rw [matchTwoDigits] at h2
    split at h2
    case isTrue hc =>
      simp only [Bool.and_eq_true, decide_eq_true_eq] at hc
      obtain ⟨⟨ha, hb⟩, htake⟩ := hc
      obtain rfl : v = 10 * digitVal a + digitVal b := by
        simpa using h2.symm
      exact Or.inl ⟨a, b, rest2.drop 3,
        by conv_lhs => rw [take_three_slash_one_zero htake]
        , ha, hb, h.symm⟩
    case isFalse hc => exact absurd h2 (by simp)
  | none =>
    rw [h2, Option.none_orElse'] at h
    rw [matchOneDigit] at h
    split at h
    case isTrue hc =>
      simp only [Bool.and_eq_true, decide_eq_true_eq] at hc
      obtain ⟨ha, htake⟩ := hc
      have hshape := take_three_slash_one_zero htake
      refine Or.inr ⟨a, (b :: rest2).drop 3, ?_, ha, by simpa using h.symm⟩
      rw [← hshape]
    case isFalse hc => exact absurd h (by simp)

lemma ratingOccHere_nil {n : Nat} (h : ratingOccHere [] n) : False := by
  rcases h with ⟨a, b, rest, h, -⟩ | ⟨a, rest, h, -⟩ <;> exact List.noConfusion h

lemma matchRatingAt_eq_none_of_no_occ {l : List Char}
    (h : ∀ m, ¬ ratingOccHere l m) : matchRatingAt l = none := by
  cases h2 : matchRatingAt l with
  | none => rfl
  | some m => exact absurd (matchRatingAt_ratingOccHere h2) (h m)

lemma searchRating_of_first {l : List Char} {i n : Nat} (hocc : ratingOccAt l i n)
    (hfirst : ∀ j m, j < i → ¬ ratingOccAt l j m) : searchRating l = n := by
  induction l generalizing i with
  | nil => exact absurd (by simpa [ratingOccAt] using hocc) ratingOccHere_nil
  | cons c rest ih =>
    cases i with
    | zero =>
      have hm : matchRatingAt (c :: rest) = some n :=
        ratingOccHere_matchRatingAt (by simpa [ratingOccAt] using hocc)
      simp [searchRating, hm]
    | succ i' =>
      have hnone : matchRatingAt (c :: rest) = none :=
        matchRatingAt_eq_none_of_no_occ fun m =>
          by simpa [ratingOccAt] using hfirst 0 m (Nat.succ_pos i')
      rw [searchRating, hnone]
      exact ih (i := i') (by simpa [ratingOccAt] using hocc)
        fun j m hj => by
          simpa [ratingOccAt] using hfirst (j + 1) m (Nat.succ_lt_succ hj)

lemma searchRating_of_no_occ {l : List Char}
    (h : ∀ i m, ¬ ratingOccAt l i m) : searchRating l = 0 := by
  induction l with
  | nil => rfl
  | cons c rest ih =>
    have hnone : matchRatingAt (c :: rest) = none :=
      matchRatingAt_eq_none_of_no_occ fun m =>
        by simpa [ratingOccAt] using h 0 m
    rw [searchRating, hnone]
    exact ih fun i m => by simpa [ratingOccAt] using h (i + 1) m

/- ### Lemmas about the label search -/

lemma afterFirst_of_first {pat l pre post : List Char} (hpat : pat ≠ [])
    (h : l = pre ++ pat ++ post)
    (hfirst : ∀ pre2 post2, l = pre2 ++ pat ++ post2 → pre.length ≤ pre2.length) :
    afterFirst pat l = some post := by
  induction pre generalizing l with
  | nil =>
    rcases pat with _ | ⟨p, pat'⟩
    · exact absurd rfl hpat
    subst h
    rw [List.nil_append, List.cons_append, afterFirst, if_pos]
    · rw [List.length_cons, List.drop_succ_cons, List.drop_left]
    · rw [List.isPrefixOf_iff_prefix, ← List.cons_append]
      exact List.prefix_append _ _
  | cons c pre' ih =>
    subst h
    have hstep : (c :: pre') ++ pat ++ post = c :: (pre' ++ pat ++ post) := by simp
    rw [hstep, afterFirst, if_neg]
    · exact ih rfl fun pre2 post2 h2 => by
        have h3 := hfirst (c :: pre2) post2 (congrArg (List.cons c) h2)
        simp only [List.length_cons] at h3
        omega
    · intro hpre
      rw [List.isPrefixOf_iff_prefix] at hpre
      obtain ⟨t, ht⟩ := hpre
      have h4 := hfirst [] t (by simp [ht])
      simp at h4

lemma afterFirst_of_not_contains {pat l : List Char}
    (h : ∀ pre post, l ≠ pre ++ pat ++ post) : afterFirst pat l = none := by
  induction l with
  | nil => rfl
  | cons c rest ih =>
    rw [afterFirst, if_neg]
    · exact ih fun pre post hc => h (c :: pre) post (by rw [hc]; simp)
    · intro hpre
      rw [List.isPrefixOf_iff_prefix] at hpre
      obtain ⟨t, ht⟩ := hpre
      exact h [] t (by rw [← ht]; simp)

/- ### Lemmas about the email pattern -/

lemma plusThen_iff {cls : Char → Bool} {k : List Char → Bool} {l : List Char} :
    plusThen cls k l = true ↔
      ∃ a b, l = a ++ b ∧ a ≠ [] ∧ (∀ c ∈ a, cls c = true) ∧ k b = true := by
  induction l with
  | nil =>
    simp only [plusThen, Bool.false_eq_true, false_iff]
    rintro ⟨a, b, h, ha, -, -⟩
    exact ha (List.append_eq_nil.mp h.symm).1
  | cons c rest ih =>
    simp only [plusThen, Bool.and_eq_true, Bool.or_eq_true]
    constructor
    · rintro ⟨hc, hk | hp⟩
      · exact ⟨[c], rest, rfl, by simp, by simpa using hc, hk⟩
      · obtain ⟨a, b, rfl, ha, hall, hkb⟩ := ih.mp hp
        exact ⟨c :: a, b, rfl, by simp, by
          intro x hx
          rcases List.mem_cons.mp hx with rfl | hx
          · exact hc
          · exact hall x hx, hkb⟩
    · rintro ⟨a, b, h, ha, hall, hkb⟩
      rcases a with _ | ⟨a0, a'⟩
      · exact absurd rfl ha
      rw [List.cons_append] at h
      obtain ⟨rfl, h2⟩ := List.cons.inj h
      refine ⟨hall c (by simp), ?_⟩
      rcases a' with _ | ⟨a1, a''⟩
      · rw [List.nil_append] at h2
        exact Or.inl (h2 ▸ hkb)
      · exact Or.inr (ih.mpr ⟨a1 :: a'', b, h2, by simp, fun x hx =>
          hall x (List.mem_cons_of_mem _ hx), hkb⟩)

lemma matchTldEnd_iff {l : List Char} :
    matchTldEnd l = true ↔ 2 ≤ l.length ∧ ∀ c ∈ l, tldChar c = true := by
  rcases l with _ | ⟨a, _ | ⟨b, rest⟩⟩
  · simp [matchTldEnd]
  · simp [matchTldEnd]
  · show (tldChar a && tldChar b && rest.all tldChar) = true ↔ _
    simp only [Bool.and_eq_true, List.all_eq_true, List.length_cons]
    constructor
    · rintro ⟨⟨ha, hb⟩, hall⟩
      refine ⟨by omega, ?_⟩
      intro c hc
      rcases List.mem_cons.mp hc with rfl | hc
      · exact ha
      rcases List.mem_cons.mp hc with rfl | hc
      · exact hb
      · exact hall c hc
    · rintro ⟨-, hall⟩
      exact ⟨⟨hall a (by simp), hall b (by simp)⟩, fun c hc => hall c (by simp [hc])⟩

lemma matchDotTld_iff {l : List Char} :
    matchDotTld l = true ↔
      ∃ t, l = '.' :: t ∧ 2 ≤ t.length ∧ ∀ c ∈ t, tldChar c = true := by
  rcases l with _ | ⟨c, rest⟩
  · simp [matchDotTld]
  · show (c = '.' && matchTldEnd rest) = true ↔ _
    simp only [Bool.and_eq_true, decide_eq_true_eq, matchTldEnd_iff]
    constructor
    · rintro ⟨rfl, h⟩
      exact ⟨rest, rfl, h⟩
    · rintro ⟨t, ht, h⟩
      obtain ⟨rfl, rfl⟩ := List.cons.inj ht
      exact ⟨rfl, h⟩

lemma matchAtDomain_iff {l : List Char} :
    matchAtDomain l = true ↔
      ∃ d t, l = '@' :: (d ++ '.' :: t) ∧ d ≠ [] ∧
        (∀ c ∈ d, domainChar c = true) ∧ 2 ≤ t.length ∧
        ∀ c ∈ t, tldChar c = true := by
  rcases l with _ | ⟨c, rest⟩
  · simp [matchAtDomain]
  · show (c = '@' && plusThen domainChar matchDotTld rest) = true ↔ _
    simp only [Bool.and_eq_true, decide_eq_true_eq, plusThen_iff, matchDotTld_iff]
    constructor
    · rintro ⟨rfl, d, b, rfl, hd, hdall, t, rfl, ht2, htall⟩
      exact ⟨d, t, rfl, hd, hdall, ht2, htall⟩
    · rintro ⟨d, t, heq, hd, hdall, ht2, htall⟩
      obtain ⟨rfl, rfl⟩ := List.cons.inj heq
      exact ⟨rfl, d, '.' :: t, rfl, hd, hdall, t, rfl, ht2, htall⟩

/- ## Claim theorems -/

/-- C1: for every candidate whose parsed rating is at least the configured
minimum and whose trimmed email passes the syntactic check, the loop body
sets Status to "Selected and Email Sent" and issues exactly the three cell
writes Status, Evaluation Reason, Rating at sheet row `idx + 2` (the
zero-based row index plus the fixed header offset). -/
theorem selected_row_status_and_writes (minRating : Nat) (emailSubject : String)
    (idx : Nat) (c : Candidate) (env : CandidateEnv)
    (hvalid : valid_email (pyStripS c.emails) = true)
    (hrating : minRating ≤ (evaluate_candidate_with_grok env.evalResponse).rating) :
    (processCandidate minRating emailSubject idx c env).status
        = some "Selected and Email Sent" ∧
    (processCandidate minRating emailSubject idx c env).writes
        = [ { row := idx + 2, col := "Status", value := "Selected and Email Sent" }
          , { row := idx + 2, col := "Evaluation Reason",
              value := (evaluate_candidate_with_grok env.evalResponse).reason }
          , { row := idx + 2, col := "Rating",
              value := toString (evaluate_candidate_with_grok env.evalResponse).rating } ] := by
  simp [processCandidate, hvalid, hrating]

/-- Witness for C1 at a concrete selected candidate. -/
theorem selected_row_status_and_writes_witness :
    (processCandidate 5 "Invite" 0
        { applicantName := "A", emails := " x@ab.com " }
        { genResponse := ⟨200, "Hello"⟩, evalResponse := ⟨200, "8/10 Reason: fit"⟩,
          sendResult := "ok" }).status = some "Selected and Email Sent" :=
  (selected_row_status_and_writes 5 "Invite" 0 _ _ (by decide) (by decide)).1

/-- C4 (amended): for every candidate whose trimmed email passes the check
and whose parsed rating is strictly below the configured minimum, the loop
body sets Status to "Not Selected" and performs no send and no cell
write. -/
theorem rejected_row_no_send_no_write (minRating : Nat) (emailSubject : String)
    (idx : Nat) (c : Candidate) (env : CandidateEnv)
    (hvalid : valid_email (pyStripS c.emails) = true)
    (hlow : (evaluate_candidate_with_grok env.evalResponse).rating < minRating) :
    (processCandidate minRating emailSubject idx c env).status = some "Not Selected" ∧
    (processCandidate minRating emailSubject idx c env).sends = [] ∧
    (processCandidate minRating emailSubject idx c env).writes = [] := by
  simp [processCandidate, hvalid, Nat.not_le.mpr hlow]

/-- Witness for C4 at a concrete rejected candidate. -/
theorem rejected_row_no_send_no_write_witness :
    (processCandidate 5 "Invite" 0
        { applicantName := "B", emails := "b@cd.org" }
        { genResponse := ⟨200, "Hello"⟩, evalResponse := ⟨200, "3/10 Reason: weak"⟩,
          sendResult := "ok" }).status = some "Not Selected" :=
  (rejected_row_no_send_no_write 5 "Invite" 0 _ _ (by decide) (by decide)).1

/-- C4 counterexample: a candidate whose rating is below the minimum but
whose email fails the check gets no Status at all — the claim's
unconditional "Status becomes Not-Selected" is false. -/
theorem rejected_row_cex :
    (evaluate_candidate_with_grok ⟨200, "no markers here"⟩).rating < 5 ∧
    (processCandidate 5 "Invite" 0
        { applicantName := "B", emails := "not-an-email" }
        { genResponse := ⟨200, "Hello"⟩, evalResponse := ⟨200, "no markers here"⟩,
          sendResult := "ok" }).status ≠ some "Not Selected" := by
  decide

/-- C7: the outcome message of the send operation influences nothing in the
row's result except what is echoed to the operator: two runs differing only
in the send result have the same status, writes, sends, rating, reason and
warning. -/
theorem send_outcome_does_not_affect_row (minRating : Nat) (emailSubject : String)
    (idx : Nat) (c : Candidate) (env : CandidateEnv) (r1 r2 : String) :
    (processCandidate minRating emailSubject idx c { env with sendResult := r1 }).status
      = (processCandidate minRating emailSubject idx c { env with sendResult := r2 }).status ∧
    (processCandidate minRating emailSubject idx c { env with sendResult := r1 }).writes
      = (processCandidate minRating emailSubject idx c { env with sendResult := r2 }).writes ∧
    (processCandidate minRating emailSubject idx c { env with sendResult := r1 }).sends
      = (processCandidate minRating emailSubject idx c { env with sendResult := r2 }).sends ∧
    (processCandidate minRating emailSubject idx c { env with sendResult := r1 }).rating
      = (processCandidate minRating emailSubject idx c { env with sendResult := r2 }).rating ∧
    (processCandidate minRating emailSubject idx c { env with sendResult := r1 }).reason
      = (processCandidate minRating emailSubject idx c { env with sendResult := r2 }).reason ∧
    (processCandidate minRating emailSubject idx c { env with sendResult := r1 }).warning
      = (processCandidate minRating emailSubject idx c { env with sendResult := r2 }).warning := by
  by_cases hv : valid_email (pyStripS c.emails) = true
  · by_cases hr : minRating ≤ (evaluate_candidate_with_grok env.evalResponse).rating
    · simp [processCandidate, hv, hr]
    · simp [processCandidate, hv, hr]
  · simp [processCandidate, hv]

/-- C2: on any text containing a 1-or-2-digit integer immediately followed
by the literal "/10", the parser returns the value of the first such
occurrence; on any text with no such occurrence it returns 0. -/
theorem parse_rating_first_occurrence (s : String) :
    (∀ i n, ratingOccAt s.data i n →
        (∀ j m, j < i → ¬ ratingOccAt s.data j m) →
        (parse_grok_response s).rating = n) ∧
    ((∀ i n, ¬ ratingOccAt s.data i n) → (parse_grok_response s).rating = 0) :=
  ⟨fun _ _ hocc hfirst => searchRating_of_first hocc hfirst,
   fun h => searchRating_of_no_occ h⟩

/-- Witness for C2: the occurrence "8/10" at position 0 is parsed as 8. -/
theorem parse_rating_first_occurrence_witness :
    ratingOccAt "8/10 overall".data 0 8 ∧
    (parse_grok_response "8/10 overall").rating = 8 := by
  have hocc : ratingOccAt "8/10 overall".data 0 8 :=
    Or.inr ⟨'8', " overall".data, by decide, by decide, by decide⟩
  exact ⟨hocc, (parse_rating_first_occurrence "8/10 overall").1 0 8 hocc
    (fun j m hj => absurd hj (Nat.not_lt_zero j))⟩

/-- C3 (amended): when the text contains the label "Reason:", the parsed
reason is everything after the first occurrence of the label, stripped of
surrounding whitespace; when it does not, the parsed reason is the full
input text unchanged (not stripped). -/
theorem parse_reason_extraction (s : String) :
    (∀ pre post, s.data = pre ++ reasonLabel ++ post →
        (∀ pre2 post2, s.data = pre2 ++ reasonLabel ++ post2 →
            pre.length ≤ pre2.length) →
        (parse_grok_response s).reason = String.mk (pyStrip post)) ∧
    ((∀ pre post, s.data ≠ pre ++ reasonLabel ++ post) →
        (parse_grok_response s).reason = s) := by
  constructor
  · intro pre post h hfirst
    have ha := afterFirst_of_first (by decide) h hfirst
    simp [parse_grok_response, ha]
  · intro h
    have ha := afterFirst_of_not_contains h
    simp [parse_grok_response, ha]

/-- Witness for C3 at a text that starts with the label. -/
theorem parse_reason_extraction_witness :
    "Reason: strong".data = [] ++ reasonLabel ++ " strong".data ∧
    (parse_grok_response "Reason: strong").reason = String.mk (pyStrip " strong".data) :=
  ⟨by decide, (parse_reason_extraction "Reason: strong").1 [] " strong".data
    (by decide) (fun _ _ _ => Nat.zero_le _)⟩

/-- C3 counterexample: on a label-free text the source returns the text
unstripped, while the claim says it is trimmed of surrounding whitespace. -/
theorem parse_reason_untrimmed_cex :
    afterFirst reasonLabel "  hi  ".data = none ∧
    (parse_grok_response "  hi  ").reason = "  hi  " ∧
    (parse_grok_response "  hi  ").reason ≠ String.mk (pyStrip "  hi  ".data) := by
  refine ⟨by decide, rfl, ?_⟩
  decide

/-- C5 (amended): every processed row ends with Status "Selected and Email
Sent" or "Not Selected" when the trimmed email passes the check, and with
no Status at all (only an operator warning) when it does not; Rating and
Evaluation Reason are populated for every row, with rating 0 and the fixed
error string when the evaluation call failed. -/
theorem row_status_invariant (minRating : Nat) (emailSubject : String)
    (idx : Nat) (c : Candidate) (env : CandidateEnv) :
    (valid_email (pyStripS c.emails) = true →
        (processCandidate minRating emailSubject idx c env).status
            = some "Selected and Email Sent" ∨
        (processCandidate minRating emailSubject idx c env).status
            = some "Not Selected") ∧
    (valid_email (pyStripS c.emails) = false →
        (processCandidate minRating emailSubject idx c env).status = none ∧
        (processCandidate minRating emailSubject idx c env).warning ≠ none) ∧
    (processCandidate minRating emailSubject idx c env).rating
        = (evaluate_candidate_with_grok env.evalResponse).rating ∧
    (processCandidate minRating emailSubject idx c env).reason
        = (evaluate_candidate_with_grok env.evalResponse).reason ∧
    (env.evalResponse.status ≠ 200 →
        (processCandidate minRating emailSubject idx c env).rating = 0 ∧
        (processCandidate minRating emailSubject idx c env).reason
            = "Error in retrieving data") := by
  refine ⟨?_, ?_, ?_, ?_, ?_⟩
  · intro hv
    by_cases hr : minRating ≤ (evaluate_candidate_with_grok env.evalResponse).rating
    · exact Or.inl (by simp [processCandidate, hv, hr])
    · exact Or.inr (by simp [processCandidate, hv, hr])
  · intro hv
    constructor <;> simp [processCandidate, hv]
  · by_cases hv : valid_email (pyStripS c.emails) = true
    · by_cases hr : minRating ≤ (evaluate_candidate_with_grok env.evalResponse).rating
      · simp [processCandidate, hv, hr]
      · simp [processCandidate, hv, hr]
    · simp [processCandidate, hv]
  · by_cases hv : valid_email (pyStripS c.emails) = true
    · by_cases hr : minRating ≤ (evaluate_candidate_with_grok env.evalResponse).rating
      · simp [processCandidate, hv, hr]
      · simp [processCandidate, hv, hr]
    · simp [processCandidate, hv]
  · intro hs
    have he : evaluate_candidate_with_grok env.evalResponse
        = { rating := 0, reason := "Error in retrieving data" } := by
      simp [evaluate_candidate_with_grok, hs]
    by_cases hv : valid_email (pyStripS c.emails) = true
    · simp only [processCandidate, hv, he, if_true]
      split_ifs <;> simp
    · simp [processCandidate, hv, he]

/-- Witness for C5 at a concrete row with a failed evaluation call. -/
theorem row_status_invariant_witness :
    (processCandidate 5 "Invite" 2
        { applicantName := "D", emails := "d@ef.net" }
        { genResponse := ⟨200, "Hello"⟩, evalResponse := ⟨503, "oops"⟩,
          sendResult := "ok" }).rating = 0 ∧
    (processCandidate 5 "Invite" 2
        { applicantName := "D", emails := "d@ef.net" }
        { genResponse := ⟨200, "Hello"⟩, evalResponse := ⟨503, "oops"⟩,
          sendResult := "ok" }).reason = "Error in retrieving data" :=
  (row_status_invariant 5 "Invite" 2 _ _).2.2.2.2 (by decide)

/-- C5 counterexample: a row whose email fails the check ends the run with
no Status value at all, not one of the three values the claim lists. -/
theorem row_status_invariant_cex :
    (processCandidate 5 "Invite" 0
        { applicantName := "E", emails := "not an email" }
        { genResponse := ⟨200, "Hello"⟩, evalResponse := ⟨200, "2/10"⟩,
          sendResult := "ok" }).status = none := by
  decide

/-- C6 (amended): the email check is purely syntactic and accepts exactly
the strings made of a non-empty local part over letters, digits and
`._%+-`, an `@`, a non-empty domain over the source's class `[a-zAZ0-9.-]`
(lowercase letters, only the uppercase letters A and Z, digits, dot,
hyphen), a dot, and a top-level domain of two or more letters. -/
theorem valid_email_characterization (s : String) :
    valid_email s = true ↔
      ∃ L d t : List Char,
        s.data = L ++ '@' :: (d ++ '.' :: t) ∧ L ≠ [] ∧
        (∀ ch ∈ L, localChar ch = true) ∧ d ≠ [] ∧
        (∀ ch ∈ d, domainChar ch = true) ∧ 2 ≤ t.length ∧
        (∀ ch ∈ t, tldChar ch = true) := by
  rw [valid_email, plusThen_iff]
  constructor
  · rintro ⟨L, b, hsplit, hL, hLall, hdom⟩
    rw [matchAtDomain_iff] at hdom
    obtain ⟨d, t, rfl, hd, hdall, ht2, htall⟩ := hdom
    exact ⟨L, d, t, hsplit, hL, hLall, hd, hdall, ht2, htall⟩
  · rintro ⟨L, d, t, heq, hL, hLall, hd, hdall, ht2, htall⟩
    refine ⟨L, '@' :: (d ++ '.' :: t), heq, hL, hLall, ?_⟩
    rw [matchAtDomain_iff]
    exact ⟨d, t, rfl, hd, hdall, ht2, htall⟩

/-- C6 counterexample: "x@B.com" is a well-formed address by the claim's
description (non-empty local part, `@`, non-empty dotted domain with an
uppercase letter, 3-letter TLD), yet the source's check rejects it: its
domain class `[a-zAZ0-9.-]` omits the uppercase letters B through Y. -/
theorem valid_email_uppercase_domain_cex :
    "x@B.com".data = ['x'] ++ '@' :: (['B'] ++ '.' :: ['c', 'o', 'm']) ∧
    valid_email_as_claimed "x@B.com" = true ∧
    valid_email "x@B.com" = false := by
  decide

/-- C8: when the invitation-generation call returns a non-200 response while
the evaluation succeeds at or above the minimum and the email is valid, the
literal fallback string "Error in generating email content." is passed
verbatim as the body of the send that still takes place. -/
theorem generation_failure_fallback_body (minRating : Nat) (emailSubject : String)
    (idx : Nat) (c : Candidate) (env : CandidateEnv)
    (hgen : env.genResponse.status ≠ 200)
    (hvalid : valid_email (pyStripS c.emails) = true)
    (hrating : minRating ≤ (evaluate_candidate_with_grok env.evalResponse).rating) :
    (processCandidate minRating emailSubject idx c env).sends
      = [ { recipient := pyStripS c.emails, subject := emailSubject,
            body := "Error in generating email content." } ] := by
  simp [processCandidate, evaluate_and_generate_email, hgen, hvalid, hrating]

/-- Witness for C8 at a concrete failed generation call. -/
theorem generation_failure_fallback_body_witness :
    (processCandidate 5 "Invite" 0
        { applicantName := "F", emails := "f@gh.io" }
        { genResponse := ⟨500, "boom"⟩, evalResponse := ⟨200, "9/10 Reason: yes"⟩,
          sendResult := "ok" }).sends
      = [ { recipient := "f@gh.io", subject := "Invite",
            body := "Error in generating email content." } ] :=
  generation_failure_fallback_body 5 "Invite" 0 _ _ (by decide) (by decide) (by decide)

/-- C9: when the configured minimum rating is at least 1 (the UI slider
range) and the evaluation call fails, the default rating 0 is below the
minimum, so no send and no cell write can happen for that candidate. -/
theorem evaluation_failure_never_sends (minRating : Nat) (emailSubject : String)
    (idx : Nat) (c : Candidate) (env : CandidateEnv)
    (hmin : 1 ≤ minRating) (heval : env.evalResponse.status ≠ 200) :
    (processCandidate minRating emailSubject idx c env).sends = [] ∧
    (processCandidate minRating emailSubject idx c env).writes = [] := by
  have hrating : (evaluate_candidate_with_grok env.evalResponse).rating = 0 := by
    simp [evaluate_candidate_with_grok, heval]
  have hlt : ¬ minRating ≤ (evaluate_candidate_with_grok env.evalResponse).rating := by
    rw [hrating]; omega
  by_cases hv : valid_email (pyStripS c.emails) = true
  · simp [processCandidate, hv, hlt]
  · simp [processCandidate, hv]

/-- Witness for C9 at a concrete failed evaluation call. -/
theorem evaluation_failure_never_sends_witness :
    (processCandidate 5 "Invite" 0
        { applicantName := "G", emails := "g@hi.com" }
        { genResponse := ⟨200, "Hello"⟩, evalResponse := ⟨502, "down"⟩,
          sendResult := "ok" }).sends = [] :=
  (evaluation_failure_never_sends 5 "Invite" 0 _ _ (by decide) (by decide)).1

/-- C10: the parser imposes no upper bound on the rating — "99/10" parses
as 99, above the 1–10 scale — and a candidate with that evaluation text and
a valid email is selected for every configured minimum of at most 10. -/
theorem rating_unbounded_selects (minRating : Nat) (emailSubject : String)
    (idx : Nat) (hmin : minRating ≤ 10) :
    (parse_grok_response "Score: 99/10. Reason: outstanding").rating = 99 ∧
    10 < (parse_grok_response "Score: 99/10. Reason: outstanding").rating ∧
    (processCandidate minRating emailSubject idx
        { applicantName := "H", emails := "h@mail.com" }
        { genResponse := ⟨200, "invite"⟩,
          evalResponse := ⟨200, "Score: 99/10. Reason: outstanding"⟩,
          sendResult := "ok" }).status = some "Selected and Email Sent" := by
  refine ⟨by decide, by decide, ?_⟩
  have hvalid : valid_email (pyStripS ("h@mail.com" : String)) = true := by decide
  have h99 : (evaluate_candidate_with_grok
      ⟨200, "Score: 99/10. Reason: outstanding"⟩).rating = 99 := by decide
  have hr : minRating ≤ (evaluate_candidate_with_grok
      ⟨200, "Score: 99/10. Reason: outstanding"⟩).rating := by
    rw [h99]; omega
  exact (by simp [processCandidate, hvalid, hr])

/-- Witness for C10 at the maximal slider value 10. -/
theorem rating_unbounded_selects_witness :
    (processCandidate 10 "Invite" 1
        { applicantName := "H", emails := "h@mail.com" }
        { genResponse := ⟨200, "invite"⟩,
          evalResponse := ⟨200, "Score: 99/10. Reason: outstanding"⟩,
          sendResult := "ok" }).status = some "Selected and Email Sent" :=
  (rating_unbounded_selects 10 "Invite" 1 (by decide)).2.2
